import Mathlib

/-!
Verification of the multi-transport MCP gateway and OAuth relay in
`src/index.js` (first, current revision of the file).

Modelling conventions for the shallow embedding:
* JavaScript string values that may be `undefined` are modelled as
  `Option String`; the empty string and `none` are both JS-falsy.
* HTTP query and body values are modelled as optional strings (scalars);
  the array-normalisation helpers of the source (`getQueryValue`,
  `getReqValue`, the `mcp-session-id` header `[0]` step) become the
  identity on this model.
* The in-memory `Map`s (`activeSessions`, `oauthAuthRequests`,
  `oauthAuthCodes`) are modelled as functions `String → Option α`
  with pointwise `set` and `del` updates.
* `await`-ed upstream HTTP calls (axios) are suspension points; their
  outcome is passed to the handler as an explicit oracle argument
  (`Option TokenData`, `none` meaning the call threw).
* Reference identity of transport objects (`===`, `instanceof`) is
  modelled by a numeric identity tag and a kind tag on `Transport`.
-/

/-- JS truthiness for an optional string: `undefined` and `""` are falsy. -/
def jsTruthy : Option String → Bool
  | none => false
  | some s => !(s == "")

/-- JS `a || b` on optional strings. -/
def jsOr (a b : Option String) : Option String :=
  if jsTruthy a then a else b

/-- JS `a || b` where the right operand is a plain (always defined) string. -/
def jsOrS (a : Option String) (b : String) : String :=
  if jsTruthy a then a.getD "" else b

/-- A process-wide in-memory table (`Map` in the source). -/
def Table (α : Type) : Type := String → Option α

/-- The empty table. -/
def Table.empty {α : Type} : Table α := fun _ => none

/-- `Map.set`. -/
def Table.set {α : Type} (t : Table α) (k : String) (v : α) : Table α :=
  fun k' => if k' = k then some v else t k'

/-- `Map.delete`. -/
def Table.del {α : Type} (t : Table α) (k : String) : Table α :=
  fun k' => if k' = k then none else t k'

/-! ### SHA-256 and base64url (node `createHash("sha256")` and the local
`base64Url` helper), over byte lists. -/

/-- 32-bit rotate right. -/
def rotr32 (n x : Nat) : Nat :=
  ((x >>> n) ||| (x <<< (32 - n))) % 4294967296

/-- 32-bit addition. -/
def add32 (a b : Nat) : Nat := (a + b) % 4294967296

/-- SHA-256 small sigma 0. -/
def ssig0 (x : Nat) : Nat :=
  Nat.xor (Nat.xor (rotr32 7 x) (rotr32 18 x)) (x >>> 3)

/-- SHA-256 small sigma 1. -/
def ssig1 (x : Nat) : Nat :=
  Nat.xor (Nat.xor (rotr32 17 x) (rotr32 19 x)) (x >>> 10)

/-- SHA-256 big sigma 0. -/
def bsig0 (x : Nat) : Nat :=
  Nat.xor (Nat.xor (rotr32 2 x) (rotr32 13 x)) (rotr32 22 x)

/-- SHA-256 big sigma 1. -/
def bsig1 (x : Nat) : Nat :=
  Nat.xor (Nat.xor (rotr32 6 x) (rotr32 11 x)) (rotr32 25 x)

/-- SHA-256 choice function. -/
def sha2ch (x y z : Nat) : Nat :=
  Nat.xor (x &&& y) ((Nat.xor x 4294967295) &&& z)

/-- SHA-256 majority function. -/
def sha2maj (x y z : Nat) : Nat :=
  Nat.xor (Nat.xor (x &&& y) (x &&& z)) (y &&& z)

/-- SHA-256 round constants. -/
def sha256K : List Nat :=
  [1116352408, 1899447441, 3049323471, 3921009573, 961987163,
   1508970993, 2453635748, 2870763221, 3624381080, 310598401,
   607225278, 1426881987, 1925078388, 2162078206, 2614888103,
   3248222580, 3835390401, 4022224774, 264347078, 604807628,
   770255983, 1249150122, 1555081692, 1996064986, 2554220882,
   2821834349, 2952996808, 3210313671, 3336571891, 3584528711,
   113926993, 338241895, 666307205, 773529912, 1294757372,
   1396182291, 1695183700, 1986661051, 2177026350, 2456956037,
   2730485921, 2820302411, 3259730800, 3345764771, 3516065817,
   3600352804, 4094571909, 275423344, 430227734, 506948616,
   659060556, 883997877, 958139571, 1322822218, 1537002063,
   1747873779, 1955562222, 2024104815, 2227730452, 2361852424,
   2428436474, 2756734187, 3204031479, 3329325298]

/-- SHA-256 initial hash state. -/
def sha256H0 : List Nat :=
  [1779033703, 3144134277, 1013904242, 2773480762, 1359893119,
   2600822924, 528734635, 1541459225]

/-- Extend the 16-word message block to the 64-word schedule (`count`
remaining words to append). -/
def sha256Extend (w : List Nat) : Nat → List Nat
  | 0 => w
  | k + 1 =>
    let i := w.length
    let nw := add32 (add32 (ssig1 (w.getD (i - 2) 0)) (w.getD (i - 7) 0))
                    (add32 (ssig0 (w.getD (i - 15) 0)) (w.getD (i - 16) 0))
    sha256Extend (w ++ [nw]) k

/-- One SHA-256 compression step over the eight-word working state. -/
def sha256Step (st : List Nat) (k w : Nat) : List Nat :=
  match st with
  | [a, b, c, d, e, f, g, h] =>
    let t1 := add32 h (add32 (bsig1 e) (add32 (sha2ch e f g) (add32 k w)))
    let t2 := add32 (bsig0 a) (sha2maj a b c)
    [add32 t1 t2, a, b, c, add32 d t1, e, f, g]
  | _ => st

/-- Compress one 16-word block into the hash state. -/
def sha256Compress (h : List Nat) (block : List Nat) : List Nat :=
  let w := sha256Extend block 48
  let st := (List.zip sha256K w).foldl (fun s kw => sha256Step s kw.1 kw.2) h
  List.zipWith add32 h st

/-- Process `n` 16-word blocks of the padded message. -/
def sha256Loop : Nat → List Nat → List Nat → List Nat
  | 0, h, _ => h
  | n + 1, h, ws => sha256Loop n (sha256Compress h (ws.take 16)) (ws.drop 16)

/-- Big-endian 8-byte encoding of a natural number. -/
def be64 (n : Nat) : List Nat :=
  [(n >>> 56) % 256, (n >>> 48) % 256, (n >>> 40) % 256, (n >>> 32) % 256,
   (n >>> 24) % 256, (n >>> 16) % 256, (n >>> 8) % 256, n % 256]

/-- SHA-256 message padding of a byte list. -/
def sha256Pad (msg : List Nat) : List Nat :=
  let len := msg.length
  let padZeros := (119 - (len % 64)) % 64
  msg ++ [0x80] ++ List.replicate padZeros 0 ++ be64 (len * 8)

/-- Group bytes into big-endian 32-bit words. -/
def bytesToWords : List Nat → List Nat
  | a :: b :: c :: d :: rest =>
    (a * 16777216 + b * 65536 + c * 256 + d) :: bytesToWords rest
  | _ => []

/-- Split 32-bit words back into big-endian bytes. -/
def wordsToBytes : List Nat → List Nat
  | [] => []
  | w :: rest =>
    (w >>> 24) % 256 :: (w >>> 16) % 256 :: (w >>> 8) % 256 :: w % 256 ::
      wordsToBytes rest

/-- UTF-8 bytes of a string. -/
def utf8Bytes (s : String) : List Nat :=
  s.toUTF8.toList.map (fun b => b.toNat)

/-- The `sha256` helper of the source: SHA-256 digest (32 bytes) of the
UTF-8 encoding of a string. -/
def sha256 (s : String) : List Nat :=
  let ws := bytesToWords (sha256Pad (utf8Bytes s))
  wordsToBytes (sha256Loop (ws.length / 16) sha256H0 ws)

/-- The base64 alphabet. -/
def base64Chars : List Char :=
  "ABCDEFGHIJKLMNOPQRSTUVWXYZabcdefghijklmnopqrstuvwxyz0123456789+/".toList

/-- Character at index `n` of the base64 alphabet. -/
def b64c (n : Nat) : Char := base64Chars.getD n 'A'

/-- Standard base64 encoding of a byte list (`buffer.toString("base64")`). -/
def base64Encode : List Nat → String
  | [] => ""
  | [a] =>
    String.mk [b64c (a >>> 2), b64c ((a % 4) <<< 4), '=', '=']
  | [a, b] =>
    String.mk [b64c (a >>> 2), b64c (((a % 4) <<< 4) + (b >>> 4)),
               b64c ((b % 16) <<< 2), '=']
  | a :: b :: c :: rest =>
    String.mk [b64c (a >>> 2), b64c (((a % 4) <<< 4) + (b >>> 4)),
               b64c (((b % 16) <<< 2) + (c >>> 6)), b64c (c % 64)]
      ++ base64Encode rest

/-- Replacement step of the `base64Url` helper: `+` becomes `-` and `/`
becomes `_`. -/
def b64UrlChar (ch : Char) : Char :=
  if ch = '+' then '-' else if ch = '/' then '_' else ch

/-- Strip the trailing `=` padding (`replace(/=+$/g, "")`). -/
def stripPad (l : List Char) : List Char :=
  (l.reverse.dropWhile (fun c => c = '=')).reverse

/-- The `base64Url` helper of the source. -/
def base64Url (bytes : List Nat) : String :=
  String.mk (stripPad ((base64Encode bytes).toList.map b64UrlChar))

/-- The `verifyPkce` helper of the source, with JS truthiness made
explicit: an absent or empty challenge passes trivially; a present,
non-empty challenge requires a non-empty verifier; an absent or empty
method behaves like `plain`. -/
def verifyPkce (codeVerifier codeChallenge method : Option String) : Bool :=
  match codeChallenge with
  | none => true
  | some c =>
    if c = "" then true
    else
      match codeVerifier with
      | none => false
      | some v =>
        if v = "" then false
        else
          match method with
          | none => v == c
          | some m =>
            if m = "" then v == c
            else if m = "plain" then v == c
            else if m = "S256" then base64Url (sha256 v) == c
            else false

example : verifyPkce (some "x") (some "x") (some "plain") = true := by decide
example : verifyPkce (some "x") (some "") (some "plain") = true := by decide
example : verifyPkce none none none = true := by decide
example : verifyPkce (some "x") (some "y") (some "zzz") = false := by decide

/-! ### Session registry and transport dispatch (`handleMcpRequest`,
`/sse` close handling, `/message`, `/messages`). -/

/-- The three transport classes of the SDK used by the gateway. -/
inductive TransportKind : Type
  | stdio
  | sse
  | streamableHttp
deriving DecidableEq, Repr

/-- A transport adapter object. `tid` models JS reference identity
(`===`), `kind` models the `instanceof` class checks. -/
structure Transport where
  tid : Nat
  kind : TransportKind
deriving DecidableEq, Repr

/-- The guarded cleanup shared by the `/sse` grace timeout, the
streamable `onsessionclosed` callback and the streamable `onclose`
callback: delete the registry entry only when the stored adapter is the
very adapter that scheduled the cleanup. -/
def graceCleanup (sessions : Table Transport) (sid : String) (t : Transport) :
    Table Transport :=
  if sessions sid = some t then sessions.del sid else sessions

/-- The `onsessioninitialized` callback installed by `handleMcpRequest`:
register the freshly generated session id to the new transport. -/
def onSessionRegistered (sessions : Table Transport) (newId : String)
    (t : Transport) : Table Transport :=
  sessions.set newId t

/-- HTTP method of an inbound request, as far as the dispatcher cares. -/
inductive HttpMethod : Type
  | get
  | post
  | other
deriving DecidableEq, Repr

/-- The parts of an inbound `/mcp` request that `handleMcpRequest`
inspects: the method, the (normalised) `mcp-session-id` header, and
whether the body parses as an initialize envelope
(`isInitializePayload`). -/
structure McpRequest where
  method : HttpMethod
  sessionIdHeader : Option String
  isInitBody : Bool
deriving DecidableEq, Repr

/-- Routing decision of `handleMcpRequest` before any transport work:
route to an existing adapter, create a fresh streamable session, or
reject with a JSON-RPC error response. -/
inductive McpDecision : Type
  | routed (t : Transport)
  | createSession
  | reject (status : Nat) (code : Int) (msg : String)
deriving DecidableEq, Repr

/-- The branch structure of `handleMcpRequest` (`src/index.js` lines
434-513): a truthy session id found in the registry is routed when the
stored adapter is a streamable transport and rejected as a transport
mismatch otherwise; a GET always opens a new streamable session; a POST
with a falsy session id and an initialize body opens a new streamable
session; everything else is rejected with the no-session error. -/
def handleMcpDecide (sessions : Table Transport) (req : McpRequest) :
    McpDecision :=
  let sessionId := req.sessionIdHeader
  let sid := sessionId.getD ""
  if jsTruthy sessionId && (sessions sid).isSome then
    match sessions sid with
    | some t =>
      if t.kind = TransportKind.streamableHttp then McpDecision.routed t
      else
        McpDecision.reject 400 (-32000)
          "Bad Request: Session exists but uses a different transport protocol"
    | none =>
      McpDecision.reject 400 (-32000)
        "Bad Request: No valid session ID provided"
  else if req.method = HttpMethod.get then McpDecision.createSession
  else if !(jsTruthy sessionId) && req.method = HttpMethod.post
      && req.isInitBody then McpDecision.createSession
  else
    McpDecision.reject 400 (-32000)
      "Bad Request: No valid session ID provided"

/-- Outcome of the `/message` (and `/messages`) POST handler. -/
inductive MsgDecision : Type
  | handled (t : Transport)
  | reject (status : Nat) (code : Int) (msg : String)
  | notFound (status : Nat) (body : String)
deriving DecidableEq, Repr

/-- The branch structure of the `/message` POST handler: look the
`sessionId` query value up only when truthy; an SSE adapter handles the
message; a stored adapter of another class is a transport mismatch; and
everything else is the plain-text session-not-found response. -/
def handleMessageDecide (sessions : Table Transport)
    (sessionIdQuery : Option String) : MsgDecision :=
  let sid := sessionIdQuery.getD ""
  let transport := if jsTruthy sessionIdQuery then sessions sid else none
  match transport with
  | some t =>
    if t.kind = TransportKind.sse then MsgDecision.handled t
    else
      MsgDecision.reject 400 (-32000)
        "Bad Request: Session exists but uses a different transport protocol"
  | none => MsgDecision.notFound 400 "Session not found"

/-! ### Bearer-token resolution (`getBearerToken`, the session token
binding in `handleMcpRequest` and `/sse`, and `finalToken` in the tool
call handler). -/

/-- Trim whitespace from both ends of a character list (JS `trim`). -/
def trimChars (cs : List Char) : List Char :=
  ((cs.dropWhile Char.isWhitespace).reverse.dropWhile Char.isWhitespace).reverse

/-- The `getBearerToken` helper: extract the token from an
`Authorization: Bearer <token>` header via `/^Bearer\s+(.+)$/i` and
`match[1].trim()` (case-insensitive scheme, at least one whitespace
separator, remainder trimmed), returning the empty string when the
header is absent or does not match. -/
def getBearerToken (authHeader : Option String) : String :=
  match authHeader with
  | none => ""
  | some h =>
    let cs := h.toList
    if ((cs.take 6).map Char.toLower == "bearer".toList)
        && !(cs.drop 6 == [])
        && ((cs.drop 6).take 1).all Char.isWhitespace then
      String.mk (trimChars (cs.drop 6))
    else ""

/-- The token bound to a session at creation:
`getBearerToken(req) || getQueryValue(req.query.token) || ""`. -/
def sessionToken (authHeader tokenQuery : Option String) : String :=
  jsOrS (jsOr (some (getBearerToken authHeader)) tokenQuery) ""

/-- `finalToken` of the tool-call handler: the session token, else the
process-wide `KANKA_API_TOKEN` default. -/
def finalToken (sessionTok : String) (envToken : String) : String :=
  jsOrS (some sessionTok) envToken

/-- The credential effectively used for upstream Resource Proxy calls in
a session created from a request with the given authorization header and
`token` query value. -/
def effectiveToken (authHeader tokenQuery : Option String)
    (envToken : String) : String :=
  finalToken (sessionToken authHeader tokenQuery) envToken

example : effectiveToken (some "Bearer abc") (some "qqq") "envv" = "abc" := by decide
example : effectiveToken (some "Basic abc") (some "qqq") "envv" = "qqq" := by decide
example : effectiveToken none none "envv" = "envv" := by decide
example : effectiveToken (some "bearer   xyz ") none "envv" = "xyz" := by decide

/-! ### OAuth relay (`/oauth/authorize`, `/oauth/callback`,
`/oauth/token`). -/

/-- The process-wide configuration constants from `config.js`
(each is `process.env.X || ""`). -/
structure Env where
  KANKA_CLIENT_ID : String
  KANKA_CLIENT_SECRET : String
  KANKA_REDIRECT_URI : String
  KANKA_API_TOKEN : String
deriving DecidableEq, Repr

/-- The query and body fields of an inbound OAuth request that
`resolveKankaConfig` inspects, plus the base URL of the gateway
(`getBaseUrl(req)`). -/
structure OAuthReq where
  q_kanka_client_id : Option String := none
  q_kanka_client_secret : Option String := none
  q_kanka_redirect_uri : Option String := none
  q_scope : Option String := none
  q_client_id : Option String := none
  b_kanka_client_id : Option String := none
  b_kanka_client_secret : Option String := none
  b_kanka_redirect_uri : Option String := none
  b_scope : Option String := none
  b_client_id : Option String := none
  baseUrl : String := ""
deriving DecidableEq, Repr

/-- The optional `fallback` argument of `resolveKankaConfig`. -/
structure KankaFallback where
  clientId : Option String := none
  clientSecret : Option String := none
  redirectUri : Option String := none
  scope : Option String := none
deriving DecidableEq, Repr

/-- The upstream client configuration resolved per request. -/
structure KankaConfig where
  clientId : Option String
  clientSecret : Option String
  redirectUri : Option String
  scope : String
deriving DecidableEq, Repr

/-- The `resolveKankaConfig` helper: each field is a JS `||` chain of
query value, body value, process constant, (for the client id also the
plain `client_id` query and body values,) and the fallback; the redirect
URI falls back to `baseUrl + "/oauth/callback"` and the scope to `""`. -/
def resolveKankaConfig (env : Env) (req : OAuthReq) (fallback : KankaFallback) :
    KankaConfig :=
  { clientId :=
      jsOr req.q_kanka_client_id (jsOr req.b_kanka_client_id
        (jsOr (some env.KANKA_CLIENT_ID) (jsOr req.q_client_id
          (jsOr req.b_client_id fallback.clientId))))
    clientSecret :=
      jsOr req.q_kanka_client_secret (jsOr req.b_kanka_client_secret
        (jsOr (some env.KANKA_CLIENT_SECRET) fallback.clientSecret))
    redirectUri :=
      jsOr req.q_kanka_redirect_uri (jsOr req.b_kanka_redirect_uri
        (jsOr (some env.KANKA_REDIRECT_URI) (jsOr fallback.redirectUri
          (some (req.baseUrl ++ "/oauth/callback")))))
    scope :=
      jsOrS (jsOr req.q_scope (jsOr req.b_scope fallback.scope)) "" }

/-- One entry of the `oauthAuthRequests` table (a Pending Authorization
Request). -/
structure PendingAuthRequest where
  clientId : Option String
  redirectUri : Option String
  state : Option String
  codeChallenge : Option String
  codeChallengeMethod : Option String
  kankaClientId : Option String
  kankaClientSecret : Option String
  kankaRedirectUri : Option String
deriving DecidableEq, Repr

/-- One entry of the `oauthAuthCodes` table (an Issued Authorization
Code): the upstream credential bundle plus the original PKCE challenge. -/
structure AuthCodePayload where
  accessToken : Option String
  refreshToken : Option String
  expiresIn : Option Nat
  codeChallenge : Option String
  codeChallengeMethod : Option String
deriving DecidableEq, Repr

/-- The query fields of `/oauth/authorize`. -/
structure AuthorizeQuery where
  client_id : Option String := none
  redirect_uri : Option String := none
  state : Option String := none
  response_type : Option String := none
  code_challenge : Option String := none
  code_challenge_method : Option String := none
deriving DecidableEq, Repr

/-- Response of `/oauth/authorize`: a JSON error with an HTTP status, or
a redirect to the upstream authorization endpoint carrying the resolved
client id and redirect URI, `state = requestId`, and the optional scope.
The URL assembly via `URLSearchParams` is represented structurally. -/
inductive AuthorizeResult : Type
  | errorJson (status : Nat) (error : String)
  | redirectUpstream (clientId redirectUri : Option String)
      (state : String) (scope : Option String)
deriving DecidableEq, Repr

/-- The `/oauth/authorize` handler: reject unless
`response_type === "code"` and the client id and redirect URI of the
caller are truthy; resolve the upstream configuration and fail 500 when
its client id or redirect URI is falsy; otherwise store a Pending
Authorization Request under the freshly minted `requestId` and redirect
upstream with `state = requestId`. -/
def oauthAuthorize (env : Env) (req : OAuthReq) (aq : AuthorizeQuery)
    (requestId : String) (requests : Table PendingAuthRequest) :
    AuthorizeResult × Table PendingAuthRequest :=
  if aq.response_type ≠ some "code" || !(jsTruthy aq.client_id)
      || !(jsTruthy aq.redirect_uri) then
    (AuthorizeResult.errorJson 400 "Invalid OAuth authorization request",
     requests)
  else
    let kankaConfig := resolveKankaConfig env req {}
    if !(jsTruthy kankaConfig.clientId)
        || !(jsTruthy kankaConfig.redirectUri) then
      (AuthorizeResult.errorJson 500 "OAuth client not configured", requests)
    else
      (AuthorizeResult.redirectUpstream kankaConfig.clientId
         kankaConfig.redirectUri requestId
         (if kankaConfig.scope ≠ "" then some kankaConfig.scope else none),
       requests.set requestId
         { clientId := aq.client_id
           redirectUri := aq.redirect_uri
           state := aq.state
           codeChallenge := aq.code_challenge
           codeChallengeMethod := aq.code_challenge_method
           kankaClientId := kankaConfig.clientId
           kankaClientSecret := kankaConfig.clientSecret
           kankaRedirectUri := kankaConfig.redirectUri })

/-- The token payload returned by the upstream identity provider. -/
structure TokenData where
  token_type : Option String := none
  access_token : Option String := none
  refresh_token : Option String := none
  expires_in : Option Nat := none
deriving DecidableEq, Repr

/-- The query fields of `/oauth/callback`. -/
structure CallbackQuery where
  code : Option String := none
  state : Option String := none
  error : Option String := none
  error_description : Option String := none
deriving DecidableEq, Repr

/-- Response of `/oauth/callback`: an upstream error surfaced verbatim,
a JSON error, a redirect back to the original caller carrying the minted
intermediary code and the original state, or (degraded mode, no pending
request matched) the raw upstream token payload. -/
inductive CallbackResult : Type
  | upstreamError (error : String) (description : Option String)
  | errorJson (status : Nat) (error : String)
  | redirectBack (redirectUri : Option String) (code : String) (state : String)
  | tokenJson (d : TokenData)
deriving DecidableEq, Repr

/-- The `/oauth/callback` handler. `upstream` is the outcome of the
`await axios.post` token exchange (`none` = the call threw, landing in
the `catch` block); `newAuthCode` is the `randomUUID()` minted for the
intermediary code. Returns the response together with the updated
`oauthAuthRequests` and `oauthAuthCodes` tables. -/
def oauthCallback (env : Env) (req : OAuthReq) (cq : CallbackQuery)
    (upstream : Option TokenData) (newAuthCode : String)
    (requests : Table PendingAuthRequest) (codes : Table AuthCodePayload) :
    CallbackResult × Table PendingAuthRequest × Table AuthCodePayload :=
  if jsTruthy cq.error then
    (CallbackResult.upstreamError (cq.error.getD "") cq.error_description,
     requests, codes)
  else if !(jsTruthy cq.code) then
    (CallbackResult.errorJson 400 "Missing code parameter", requests, codes)
  else
    let requestId := cq.state.getD ""
    let request := if requestId ≠ "" then requests requestId else none
    let kankaConfig := resolveKankaConfig env req
      { clientId := request.bind (fun r => r.kankaClientId)
        clientSecret := request.bind (fun r => r.kankaClientSecret)
        redirectUri := request.bind (fun r => r.kankaRedirectUri) }
    if !(jsTruthy kankaConfig.clientId) || !(jsTruthy kankaConfig.clientSecret)
        || !(jsTruthy kankaConfig.redirectUri) then
      (CallbackResult.errorJson 500 "OAuth client not configured",
       requests, codes)
    else
      match upstream with
      | none =>
        (CallbackResult.errorJson 500 "Token exchange failed", requests, codes)
      | some data =>
        match request with
        | some r =>
          (CallbackResult.redirectBack r.redirectUri newAuthCode
             (jsOrS r.state ""),
           requests.del requestId,
           codes.set newAuthCode
             { accessToken := data.access_token
               refreshToken := data.refresh_token
               expiresIn := data.expires_in
               codeChallenge := r.codeChallenge
               codeChallengeMethod := r.codeChallengeMethod })
        | none => (CallbackResult.tokenJson data, requests, codes)

/-- The body fields of `/oauth/token`. -/
structure TokenBody where
  grant_type : Option String := none
  code : Option String := none
  code_verifier : Option String := none
  refresh_token : Option String := none
deriving DecidableEq, Repr

/-- Response of `/oauth/token`: a JSON error with an HTTP status, the
stored credential bundle (authorization-code grant), or the relayed
upstream payload (refresh grant). -/
inductive TokenResult : Type
  | errorJson (status : Nat) (error : String)
  | tokens (token_type : String) (access_token refresh_token : Option String)
      (expires_in : Option Nat)
  | refreshed (d : TokenData)
deriving DecidableEq, Repr

/-- The `/oauth/token` handler. `upstreamRefresh` is the outcome of the
`await axios.post` refresh call (`none` = threw). Returns the response
together with the updated `oauthAuthCodes` table. -/
def oauthToken (env : Env) (req : OAuthReq) (body : TokenBody)
    (upstreamRefresh : Option TokenData) (codes : Table AuthCodePayload) :
    TokenResult × Table AuthCodePayload :=
  let kankaConfig := resolveKankaConfig env req {}
  if body.grant_type = some "authorization_code" then
    if !(jsTruthy body.code) then
      (TokenResult.errorJson 400 "Missing code", codes)
    else
      let c := body.code.getD ""
      match codes c with
      | none => (TokenResult.errorJson 400 "Invalid or expired code", codes)
      | some payload =>
        if !(verifyPkce body.code_verifier payload.codeChallenge
              payload.codeChallengeMethod) then
          (TokenResult.errorJson 400 "Invalid code_verifier", codes)
        else
          (TokenResult.tokens "Bearer" payload.accessToken
             payload.refreshToken payload.expiresIn,
           codes.del c)
  else if body.grant_type = some "refresh_token" then
    if !(jsTruthy body.refresh_token) then
      (TokenResult.errorJson 400 "Missing refresh_token", codes)
    else if !(jsTruthy kankaConfig.clientId)
        || !(jsTruthy kankaConfig.clientSecret) then
      (TokenResult.errorJson 500 "OAuth client not configured", codes)
    else
      match upstreamRefresh with
      | none => (TokenResult.errorJson 500 "Token refresh failed", codes)
      | some d => (TokenResult.refreshed d, codes)
  else (TokenResult.errorJson 400 "Unsupported grant_type", codes)

/-! ### Shared table lemmas. -/

/-- Reading a key just written. -/
theorem Table.get_set {α : Type} (t : Table α) (k : String) (v : α) :
    (t.set k v) k = some v := by
  simp [Table.set]

/-- Reading a key just deleted. -/
theorem Table.get_del {α : Type} (t : Table α) (k : String) :
    (t.del k) k = none := by
  simp [Table.del]

/-! ### Claims. -/

/-- C1 (counterexample): the claim asserts that
`verifyPkce(v, c, "plain")` is true iff `v == c` for every challenge
`c`; at the concrete input `v = "x"`, `c = ""` (an empty but present
challenge) the code returns `true` although `"x" ≠ ""`. -/
theorem C1_counterexample :
    verifyPkce (some "x") (some "") (some "plain") = true ∧ "x" ≠ "" := by
  exact ⟨by decide, by decide⟩

/-- C1 (amended): `verifyPkce` returns true for every verifier and
method when the challenge is absent or empty; when the challenge is a
non-empty string, an absent or empty verifier fails, and otherwise the
method `"S256"` verifies iff `base64url(sha256(v)) == c`, the method
`"plain"` verifies iff `v == c`, and any other non-empty method value
fails closed. -/
theorem C1_verifyPkce_amended :
    (∀ (v m : Option String), verifyPkce v none m = true)
    ∧ (∀ (v m : Option String), verifyPkce v (some "") m = true)
    ∧ (∀ (c : String) (m : Option String), c ≠ "" →
        verifyPkce none (some c) m = false
        ∧ verifyPkce (some "") (some c) m = false)
    ∧ (∀ (v c : String), v ≠ "" → c ≠ "" →
        (verifyPkce (some v) (some c) (some "S256") = true
          ↔ base64Url (sha256 v) = c))
    ∧ (∀ (v c : String), v ≠ "" → c ≠ "" →
        (verifyPkce (some v) (some c) (some "plain") = true ↔ v = c))
    ∧ (∀ (v c m : String), v ≠ "" → c ≠ "" → m ≠ "" → m ≠ "plain" →
        m ≠ "S256" → verifyPkce (some v) (some c) (some m) = false) := by
  refine ⟨?_, ?_, ?_, ?_, ?_, ?_⟩
  · intro v m; cases v <;> cases m <;> simp [verifyPkce]
  · intro v m; cases v <;> cases m <;> simp [verifyPkce]
  · intro c m hc; cases m <;> simp [verifyPkce, hc]
  · intro v c hv hc
    by_cases hpl : v = "plain" <;> simp [verifyPkce, hv, hc, hpl]
  · intro v c hv hc; simp [verifyPkce, hv, hc]
  · intro v c m hv hc hm hmp hms
    simp [verifyPkce, hv, hc, hm, hmp, hms]

/-- C1 (witness): the amended characterisation applied at concrete
inputs. -/
theorem C1_witness :
    verifyPkce (some "abc") none none = true
    ∧ (verifyPkce (some "v1") (some "ch") (some "S256") = true
        ↔ base64Url (sha256 "v1") = "ch")
    ∧ (verifyPkce (some "v1") (some "ch") (some "plain") = true ↔ "v1" = "ch")
    ∧ verifyPkce (some "v1") (some "ch") (some "weird") = false :=
  ⟨C1_verifyPkce_amended.1 (some "abc") none,
   C1_verifyPkce_amended.2.2.2.1 "v1" "ch" (by decide) (by decide),
   C1_verifyPkce_amended.2.2.2.2.1 "v1" "ch" (by decide) (by decide),
   C1_verifyPkce_amended.2.2.2.2.2 "v1" "ch" "weird" (by decide) (by decide)
     (by decide) (by decide) (by decide)⟩

/-- C9 (counterexample): the claim asserts that with no recorded method,
verification of `v` against a stored challenge `c` succeeds iff
`v == c`; at the concrete input `v = "x"`, `c = ""` (an empty stored
challenge, no method) the code returns `true` although `"x" ≠ ""`. -/
theorem C9_counterexample :
    verifyPkce (some "x") (some "") none = true ∧ "x" ≠ "" := by
  exact ⟨by decide, by decide⟩

/-- C9 (amended): an absent or empty `code_challenge_method` is treated
as `"plain"`: for every non-empty stored challenge `c` with no recorded
(or empty) method, verification of verifier `v` succeeds iff `v` is
exactly the string `c`; when the stored challenge is the empty string,
verification succeeds for every verifier. -/
theorem C9_absent_method_is_plain :
    (∀ (v : Option String) (c : String), c ≠ "" →
        (verifyPkce v (some c) none = true ↔ v = some c))
    ∧ (∀ (v : Option String) (c : String), c ≠ "" →
        (verifyPkce v (some c) (some "") = true ↔ v = some c))
    ∧ (∀ (v : Option String), verifyPkce v (some "") none = true) := by
  refine ⟨?_, ?_, ?_⟩
  · intro v c hc
    cases v with
    | none => simp [verifyPkce, hc]
    | some vv =>
      by_cases hvv : vv = "" <;>
        simp [verifyPkce, hc, hvv, Ne.symm hc]
  · intro v c hc
    cases v with
    | none => simp [verifyPkce, hc]
    | some vv =>
      by_cases hvv : vv = "" <;>
        simp [verifyPkce, hc, hvv, Ne.symm hc]
  · intro v; cases v <;> simp [verifyPkce]

/-- C9 (witness): the amended characterisation applied at concrete
inputs. -/
theorem C9_witness :
    (verifyPkce (some "tok") (some "tok") none = true ↔ some "tok" = some "tok")
    ∧ (verifyPkce (some "a") (some "b") (some "") = true ↔ some "a" = some "b") :=
  ⟨C9_absent_method_is_plain.1 (some "tok") "tok" (by decide),
   C9_absent_method_is_plain.2.1 (some "a") "b" (by decide)⟩

/-- C3: a scheduled grace-period removal for session id `sid` keyed to
adapter `a` is a no-op when a different adapter `b` is currently
registered under `sid` (the re-registered adapter stays registered), and
in general the scheduled removal mutates the registry only when the
stored adapter is identical to the adapter that scheduled it. -/
theorem C3_grace_eviction_compare_by_identity :
    (∀ (sessions : Table Transport) (sid : String) (a b : Transport),
        sessions sid = some b → b ≠ a →
        graceCleanup sessions sid a = sessions
        ∧ (graceCleanup sessions sid a) sid = some b)
    ∧ (∀ (sessions : Table Transport) (sid : String) (a : Transport),
        graceCleanup sessions sid a ≠ sessions → sessions sid = some a) := by
  constructor
  · intro sessions sid a b hb hne
    have hcond : sessions sid ≠ some a := by
      rw [hb]; intro h; exact hne (Option.some.injEq _ _ ▸ h)
    constructor
    · simp [graceCleanup, hcond]
    · simp [graceCleanup, hcond, hb, hne]
  · intro sessions sid a hch
    by_cases h : sessions sid = some a
    · exact h
    · exact absurd (by simp [graceCleanup, h]) hch

/-- C3 (witness): with adapter 2 registered under `"s1"`, the cleanup
scheduled by the closure of adapter 1 changes nothing. -/
theorem C3_witness :
    graceCleanup (Table.empty.set "s1" ⟨2, TransportKind.sse⟩) "s1"
        ⟨1, TransportKind.sse⟩
      = Table.empty.set "s1" ⟨2, TransportKind.sse⟩
    ∧ (graceCleanup (Table.empty.set "s1" ⟨2, TransportKind.sse⟩) "s1"
        ⟨1, TransportKind.sse⟩) "s1" = some ⟨2, TransportKind.sse⟩ :=
  C3_grace_eviction_compare_by_identity.1
    (Table.empty.set "s1" ⟨2, TransportKind.sse⟩) "s1"
    ⟨1, TransportKind.sse⟩ ⟨2, TransportKind.sse⟩ (by decide) (by decide)

/-- C5 (counterexample): the claim asserts that every request carrying a
session id unknown to the registry is answered with a SessionError and
in particular does not create a new session; but a GET request carrying
the unknown id `"S9"` on an empty registry opens a fresh streamable
session instead of being rejected. -/
theorem C5_counterexample :
    handleMcpDecide Table.empty
        { method := HttpMethod.get, sessionIdHeader := some "S9",
          isInitBody := false }
      = McpDecision.createSession
    ∧ McpDecision.createSession
      ≠ McpDecision.reject 400 (-32000)
          "Bad Request: No valid session ID provided" := by
  exact ⟨by decide, by decide⟩

/-- C5 (amended): an initialize POST carrying no (or an empty) session
id opens a new session, and once its generated id is registered to the
new streamable transport, every request carrying that id is routed to
that same transport; every non-GET request carrying a session id unknown
to the registry is answered with the SessionError response (a GET
instead opens a new session). -/
theorem C5_session_lifecycle_amended :
    (∀ (sessions : Table Transport) (req : McpRequest),
        (req.sessionIdHeader = none ∨ req.sessionIdHeader = some "") →
        req.method = HttpMethod.post → req.isInitBody = true →
        handleMcpDecide sessions req = McpDecision.createSession)
    ∧ (∀ (sessions : Table Transport) (g : String) (t : Transport)
          (req : McpRequest),
        g ≠ "" → t.kind = TransportKind.streamableHttp →
        req.sessionIdHeader = some g →
        handleMcpDecide (onSessionRegistered sessions g t) req
          = McpDecision.routed t)
    ∧ (∀ (sessions : Table Transport) (req : McpRequest) (sid : String),
        req.sessionIdHeader = some sid → sid ≠ "" → sessions sid = none →
        req.method ≠ HttpMethod.get →
        handleMcpDecide sessions req
          = McpDecision.reject 400 (-32000)
              "Bad Request: No valid session ID provided") := by
  refine ⟨?_, ?_, ?_⟩
  · intro sessions req hsid hpost hinit
    rcases hsid with h | h <;>
      simp [handleMcpDecide, h, hpost, hinit, jsTruthy]
  · intro sessions g t req hg ht hreq
    simp [handleMcpDecide, onSessionRegistered, Table.set, hreq, jsTruthy,
      hg, ht]
  · intro sessions req sid hreq hsid hnone hget
    simp [handleMcpDecide, hreq, jsTruthy, hsid, hnone, hget]

/-- C5 (witness): the amended lifecycle at concrete inputs: an
initialize POST with no session id creates a session; after the
generated id `"G1"` is registered, a request carrying `"G1"` is routed
to the registered transport; a POST carrying the unknown id `"S9"` is
rejected. -/
theorem C5_witness :
    handleMcpDecide Table.empty
        { method := HttpMethod.post, sessionIdHeader := none,
          isInitBody := true }
      = McpDecision.createSession
    ∧ handleMcpDecide
        (onSessionRegistered Table.empty "G1" ⟨7, TransportKind.streamableHttp⟩)
        { method := HttpMethod.post, sessionIdHeader := some "G1",
          isInitBody := false }
      = McpDecision.routed ⟨7, TransportKind.streamableHttp⟩
    ∧ handleMcpDecide Table.empty
        { method := HttpMethod.post, sessionIdHeader := some "S9",
          isInitBody := false }
      = McpDecision.reject 400 (-32000)
          "Bad Request: No valid session ID provided" :=
  ⟨C5_session_lifecycle_amended.1 Table.empty _ (Or.inl rfl) rfl rfl,
   C5_session_lifecycle_amended.2.1 Table.empty "G1"
     ⟨7, TransportKind.streamableHttp⟩ _ (by decide) rfl rfl,
   C5_session_lifecycle_amended.2.2 Table.empty _ "S9" rfl (by decide) rfl
     (by decide)⟩

/-- C6: a session id stored with an adapter of a different transport
class than the endpoint expects is rejected with the 400 / -32000
transport-mismatch response and is never routed: at `/mcp` a stored
non-streamable adapter, and at `/message` a stored non-SSE adapter. -/
theorem C6_transport_mismatch :
    (∀ (sessions : Table Transport) (req : McpRequest) (sid : String)
        (t : Transport),
        req.sessionIdHeader = some sid → sid ≠ "" → sessions sid = some t →
        t.kind ≠ TransportKind.streamableHttp →
        handleMcpDecide sessions req
          = McpDecision.reject 400 (-32000)
              "Bad Request: Session exists but uses a different transport protocol"
        ∧ ∀ t', handleMcpDecide sessions req ≠ McpDecision.routed t')
    ∧ (∀ (sessions : Table Transport) (sid : String) (t : Transport),
        sid ≠ "" → sessions sid = some t → t.kind ≠ TransportKind.sse →
        handleMessageDecide sessions (some sid)
          = MsgDecision.reject 400 (-32000)
              "Bad Request: Session exists but uses a different transport protocol"
        ∧ ∀ t', handleMessageDecide sessions (some sid) ≠ MsgDecision.handled t') := by
  constructor
  · intro sessions req sid t hreq hsid hget hkind
    have heq : handleMcpDecide sessions req
        = McpDecision.reject 400 (-32000)
            "Bad Request: Session exists but uses a different transport protocol" := by
      simp [handleMcpDecide, hreq, jsTruthy, hsid, hget, hkind]
    exact ⟨heq, fun t' h => by rw [heq] at h; exact McpDecision.noConfusion h⟩
  · intro sessions sid t hsid hget hkind
    have heq : handleMessageDecide sessions (some sid)
        = MsgDecision.reject 400 (-32000)
            "Bad Request: Session exists but uses a different transport protocol" := by
      simp [handleMessageDecide, jsTruthy, hsid, hget, hkind]
    exact ⟨heq, fun t' h => by rw [heq] at h; exact MsgDecision.noConfusion h⟩

/-- C6 (witness): an SSE session id presented at `/mcp` and a streamable
session id presented at `/message` are both answered with the
transport-mismatch rejection. -/
theorem C6_witness :
    handleMcpDecide (Table.empty.set "sseid" ⟨3, TransportKind.sse⟩)
        { method := HttpMethod.post, sessionIdHeader := some "sseid",
          isInitBody := false }
      = McpDecision.reject 400 (-32000)
          "Bad Request: Session exists but uses a different transport protocol"
    ∧ handleMessageDecide
        (Table.empty.set "mcpid" ⟨4, TransportKind.streamableHttp⟩)
        (some "mcpid")
      = MsgDecision.reject 400 (-32000)
          "Bad Request: Session exists but uses a different transport protocol" :=
  ⟨(C6_transport_mismatch.1 (Table.empty.set "sseid" ⟨3, TransportKind.sse⟩)
      _ "sseid" ⟨3, TransportKind.sse⟩ rfl (by decide) (by decide)
      (by decide)).1,
   (C6_transport_mismatch.2
      (Table.empty.set "mcpid" ⟨4, TransportKind.streamableHttp⟩)
      "mcpid" ⟨4, TransportKind.streamableHttp⟩ (by decide) (by decide)
      (by decide)).1⟩

/-- C7: every authorization-start request whose `response_type` is not
`"code"` is answered with the 400 invalid-authorization-request error,
and the Pending Authorization Request table is returned unchanged. -/
theorem C7_authorize_rejects_non_code :
    ∀ (env : Env) (req : OAuthReq) (aq : AuthorizeQuery) (requestId : String)
      (requests : Table PendingAuthRequest),
      aq.response_type ≠ some "code" →
      oauthAuthorize env req aq requestId requests
        = (AuthorizeResult.errorJson 400 "Invalid OAuth authorization request",
           requests) := by
  intro env req aq requestId requests hrt
  simp [oauthAuthorize, hrt]

/-- C7 (witness): an authorization start with `response_type=token`
leaves an empty table empty and is rejected with status 400. -/
theorem C7_witness :
    oauthAuthorize ⟨"id", "sec", "uri", "tok"⟩ {}
        { response_type := some "token", client_id := some "c",
          redirect_uri := some "http://r" } "rid" Table.empty
      = (AuthorizeResult.errorJson 400 "Invalid OAuth authorization request",
         Table.empty) :=
  C7_authorize_rejects_non_code ⟨"id", "sec", "uri", "tok"⟩ {}
    { response_type := some "token", client_id := some "c",
      redirect_uri := some "http://r" } "rid" Table.empty (by decide)

/-- C8: the credential bound at session creation and used for upstream
calls is the first non-empty of: the bearer value of the Authorization
header, the `token` query value, and the process-wide default token, in
exactly that order. -/
theorem C8_token_precedence :
    ∀ (h q : Option String) (envToken : String),
      (getBearerToken h ≠ "" →
        effectiveToken h q envToken = getBearerToken h)
      ∧ (getBearerToken h = "" → jsTruthy q = true →
        effectiveToken h q envToken = q.getD "")
      ∧ (getBearerToken h = "" → jsTruthy q = false →
        effectiveToken h q envToken = envToken) := by
  intro h q e
  refine ⟨?_, ?_, ?_⟩
  · intro hb
    simp [effectiveToken, finalToken, sessionToken, jsOrS, jsOr, jsTruthy, hb]
  · intro hb hq
    cases q with
    | none => simp [jsTruthy] at hq
    | some s =>
      have hs : s ≠ "" := by simpa [jsTruthy] using hq
      simp [effectiveToken, finalToken, sessionToken, jsOrS, jsOr, jsTruthy,
        hb, hs]
  · intro hb hq
    cases q with
    | none =>
      simp [effectiveToken, finalToken, sessionToken, jsOrS, jsOr, jsTruthy,
        hb]
    | some s =>
      have hs : s = "" := by simpa [jsTruthy] using hq
      simp [effectiveToken, finalToken, sessionToken, jsOrS, jsOr, jsTruthy,
        hb, hs]

/-- C8 (witness): the precedence chain at concrete inputs: a bearer
header wins; with no usable header the `token` query value wins; with
neither the process default is used. -/
theorem C8_witness :
    effectiveToken (some "Bearer aaa") (some "qqq") "envtok" = "aaa"
    ∧ effectiveToken (some "Basic zzz") (some "qqq") "envtok" = "qqq"
    ∧ effectiveToken none none "envtok" = "envtok" :=
  ⟨by
    have := (C8_token_precedence (some "Bearer aaa") (some "qqq") "envtok").1
      (by decide)
    simpa using this,
   by
    have := (C8_token_precedence (some "Basic zzz") (some "qqq") "envtok").2.1
      (by decide) (by decide)
    simpa using this,
   (C8_token_precedence none none "envtok").2.2 rfl rfl⟩

/-- C2: a successful authorization-code exchange at `/oauth/token`
consumes the code: the stored credential bundle is returned, the entry
is deleted from the table, and any second exchange attempt with the same
code against the resulting table fails with the 400
invalid-or-expired-code error. -/
theorem C2_auth_code_single_use :
    ∀ (env : Env) (req : OAuthReq) (body : TokenBody) (u : Option TokenData)
      (codes : Table AuthCodePayload) (c tt : String)
      (atk rtk : Option String) (ei : Option Nat),
      body.code = some c →
      (oauthToken env req body u codes).1 = TokenResult.tokens tt atk rtk ei →
      ∃ payload, codes c = some payload
        ∧ tt = "Bearer" ∧ atk = payload.accessToken
        ∧ rtk = payload.refreshToken ∧ ei = payload.expiresIn
        ∧ (oauthToken env req body u codes).2 = codes.del c
        ∧ (oauthToken env req body u codes).2 c = none
        ∧ (∀ (env2 : Env) (req2 : OAuthReq) (body2 : TokenBody)
              (u2 : Option TokenData),
            body2.grant_type = some "authorization_code" →
            body2.code = some c →
            oauthToken env2 req2 body2 u2 ((oauthToken env req body u codes).2)
              = (TokenResult.errorJson 400 "Invalid or expired code",
                 (oauthToken env req body u codes).2)) := by
  intro env req body u codes c tt atk rtk ei hcode hsucc
  by_cases hg : body.grant_type = some "authorization_code"
  case neg =>
    exfalso
    by_cases hr : body.grant_type = some "refresh_token"
    · by_cases ht : jsTruthy body.refresh_token = true
      · by_cases hcfg : (!(jsTruthy (resolveKankaConfig env req {}).clientId)
            || !(jsTruthy (resolveKankaConfig env req {}).clientSecret)) = true
        · simp [oauthToken, hg, hr, ht, hcfg] at hsucc
        · cases u with
          | none => simp [oauthToken, hg, hr, ht, hcfg] at hsucc
          | some d => simp [oauthToken, hg, hr, ht, hcfg] at hsucc
      · simp [oauthToken, hg, hr, ht] at hsucc
    · simp [oauthToken, hg, hr] at hsucc
  case pos =>
    by_cases hct : jsTruthy body.code = true
    case neg => exact absurd hsucc (by simp [oauthToken, hg, hct])
    case pos =>
      have hcd : body.code.getD "" = c := by rw [hcode]; rfl
      have hcne : c ≠ "" := by
        rw [hcode] at hct; simpa [jsTruthy] using hct
      cases hlook : codes c with
      | none =>
        exact absurd hsucc (by simp [oauthToken, hg, hct, hcd, hlook])
      | some payload =>
        by_cases hp : verifyPkce body.code_verifier payload.codeChallenge
            payload.codeChallengeMethod = true
        case neg =>
          exact absurd hsucc (by simp [oauthToken, hg, hct, hcd, hlook, hp])
        case pos =>
          have heval : oauthToken env req body u codes
              = (TokenResult.tokens "Bearer" payload.accessToken
                   payload.refreshToken payload.expiresIn, codes.del c) := by
            simp [oauthToken, hg, hct, hcd, hlook, hp]
          rw [heval] at hsucc
          have hinj : "Bearer" = tt ∧ payload.accessToken = atk
              ∧ payload.refreshToken = rtk ∧ payload.expiresIn = ei := by
            simpa using hsucc
          obtain ⟨htt, hat, hrt, hei⟩ := hinj
          refine ⟨payload, rfl, htt.symm, hat.symm, hrt.symm, hei.symm,
            ?_, ?_, ?_⟩
          · rw [heval]
          · rw [heval]; exact Table.get_del codes c
          · intro env2 req2 body2 u2 hg2 hcode2
            rw [heval]
            simp [oauthToken, hg2, hcode2, jsTruthy, hcne, Table.get_del]

/-- C2 (witness): after the concrete code `"code1"` is successfully
exchanged, the resulting table no longer contains it. -/
theorem C2_witness :
    (oauthToken ⟨"", "", "", ""⟩ {}
        { grant_type := some "authorization_code", code := some "code1" } none
        (Table.empty.set "code1"
          ⟨some "AT", some "RT", some 3600, none, none⟩)).2 "code1"
      = none := by
  obtain ⟨p, hp⟩ := C2_auth_code_single_use ⟨"", "", "", ""⟩ {}
    { grant_type := some "authorization_code", code := some "code1" } none
    (Table.empty.set "code1" ⟨some "AT", some "RT", some 3600, none, none⟩)
    "code1" "Bearer" (some "AT") (some "RT") (some 3600) rfl (by decide)
  exact hp.2.2.2.2.2.2.1

/-- C10: a failed authorization-code exchange leaves the code table
unchanged: when PKCE verification fails (including a missing verifier
against a stored challenge) the endpoint answers 400 without deleting
the entry, a later attempt with the same code and a passing verifier
still succeeds, and in general only a successful exchange mutates the
table. -/
theorem C10_failed_exchange_preserves_codes :
    (∀ (env : Env) (req : OAuthReq) (body : TokenBody) (u : Option TokenData)
        (codes : Table AuthCodePayload) (c : String)
        (payload : AuthCodePayload),
      body.grant_type = some "authorization_code" →
      body.code = some c → c ≠ "" →
      codes c = some payload →
      verifyPkce body.code_verifier payload.codeChallenge
          payload.codeChallengeMethod = false →
      oauthToken env req body u codes
        = (TokenResult.errorJson 400 "Invalid code_verifier", codes)
      ∧ ∀ (env2 : Env) (req2 : OAuthReq) (body2 : TokenBody)
          (u2 : Option TokenData),
          body2.grant_type = some "authorization_code" →
          body2.code = some c →
          verifyPkce body2.code_verifier payload.codeChallenge
              payload.codeChallengeMethod = true →
          oauthToken env2 req2 body2 u2 codes
            = (TokenResult.tokens "Bearer" payload.accessToken
                 payload.refreshToken payload.expiresIn, codes.del c))
    ∧ (∀ (env : Env) (req : OAuthReq) (body : TokenBody) (u : Option TokenData)
        (codes : Table AuthCodePayload),
      (oauthToken env req body u codes).2 = codes
      ∨ ∃ tt atk rtk ei,
          (oauthToken env req body u codes).1
            = TokenResult.tokens tt atk rtk ei) := by
  constructor
  · intro env req body u codes c payload hg hcode hcne hlook hp
    constructor
    · simp [oauthToken, hg, hcode, jsTruthy, hcne, hlook, hp]
    · intro env2 req2 body2 u2 hg2 hcode2 hp2
      simp [oauthToken, hg2, hcode2, jsTruthy, hcne, hlook, hp2]
  · intro env req body u codes
    by_cases hg : body.grant_type = some "authorization_code"
    · by_cases hct : jsTruthy body.code = true
      · cases hlook : codes (body.code.getD "") with
        | none => left; simp [oauthToken, hg, hct, hlook]
        | some payload =>
          by_cases hp : verifyPkce body.code_verifier payload.codeChallenge
              payload.codeChallengeMethod = true
          · right
            exact ⟨"Bearer", payload.accessToken, payload.refreshToken,
              payload.expiresIn, by simp [oauthToken, hg, hct, hlook, hp]⟩
          · left; simp [oauthToken, hg, hct, hlook, hp]
      · left; simp [oauthToken, hg, hct]
    · by_cases hr : body.grant_type = some "refresh_token"
      · by_cases ht : jsTruthy body.refresh_token = true
        · by_cases hcfg : (!(jsTruthy (resolveKankaConfig env req {}).clientId)
              || !(jsTruthy (resolveKankaConfig env req {}).clientSecret))
              = true
          · left; simp [oauthToken, hg, hr, ht, hcfg]
          · cases u with
            | none => left; simp [oauthToken, hg, hr, ht, hcfg]
            | some d => left; simp [oauthToken, hg, hr, ht, hcfg]
        · left; simp [oauthToken, hg, hr, ht]
      · left; simp [oauthToken, hg, hr]

/-- C10 (witness): with a stored plain challenge `"ch"`, the wrong
verifier leaves the table untouched and the right verifier still
succeeds afterwards. -/
theorem C10_witness :
    oauthToken ⟨"", "", "", ""⟩ {}
        { grant_type := some "authorization_code", code := some "c10",
          code_verifier := some "wrong" } none
        (Table.empty.set "c10" ⟨some "AT2", none, none, some "ch", some "plain"⟩)
      = (TokenResult.errorJson 400 "Invalid code_verifier",
         Table.empty.set "c10" ⟨some "AT2", none, none, some "ch", some "plain"⟩)
    ∧ oauthToken ⟨"", "", "", ""⟩ {}
        { grant_type := some "authorization_code", code := some "c10",
          code_verifier := some "ch" } none
        (Table.empty.set "c10" ⟨some "AT2", none, none, some "ch", some "plain"⟩)
      = (TokenResult.tokens "Bearer" (some "AT2") none none,
         (Table.empty.set "c10"
           ⟨some "AT2", none, none, some "ch", some "plain"⟩).del "c10") := by
  have h := C10_failed_exchange_preserves_codes.1 ⟨"", "", "", ""⟩ {}
    { grant_type := some "authorization_code", code := some "c10",
      code_verifier := some "wrong" } none
    (Table.empty.set "c10" ⟨some "AT2", none, none, some "ch", some "plain"⟩)
    "c10" ⟨some "AT2", none, none, some "ch", some "plain"⟩
    rfl rfl (by decide) (by decide) (by decide)
  exact ⟨h.1, h.2 ⟨"", "", "", ""⟩ {}
    { grant_type := some "authorization_code", code := some "c10",
      code_verifier := some "ch" } none rfl rfl (by decide)⟩

/-- C4 (counterexample): the claim asserts that once the state lookup
succeeds the Pending Authorization Request is removed even if the
upstream exchange fails; at this concrete input the lookup of `"rid"`
succeeds, the upstream exchange throws, the callback answers 500, and
the entry is still present — a repeat callback with the same state would
find a pending request again. -/
theorem C4_counterexample :
    (Table.empty.set "rid"
        (⟨some "cl", some "http://cb", some "st", none, none,
          some "kid", some "ksec", some "kuri"⟩ : PendingAuthRequest)) "rid"
      = some ⟨some "cl", some "http://cb", some "st", none, none,
              some "kid", some "ksec", some "kuri"⟩
    ∧ (oauthCallback ⟨"", "", "", ""⟩ {}
        { code := some "upc", state := some "rid" } none "nc"
        (Table.empty.set "rid"
          ⟨some "cl", some "http://cb", some "st", none, none,
           some "kid", some "ksec", some "kuri"⟩)
        Table.empty).1
      = CallbackResult.errorJson 500 "Token exchange failed"
    ∧ (oauthCallback ⟨"", "", "", ""⟩ {}
        { code := some "upc", state := some "rid" } none "nc"
        (Table.empty.set "rid"
          ⟨some "cl", some "http://cb", some "st", none, none,
           some "kid", some "ksec", some "kuri"⟩)
        Table.empty).2.1 "rid"
      = some ⟨some "cl", some "http://cb", some "st", none, none,
              some "kid", some "ksec", some "kuri"⟩ := by
  exact ⟨by decide, by decide, by decide⟩

/-- Case analysis of the callback outcome: either the response is not a
redirect and both tables are returned unchanged, or the response is the
redirect-back and the pending entry under the presented state has been
deleted. -/
theorem oauthCallbackCases :
    ∀ (env : Env) (req : OAuthReq) (cq : CallbackQuery)
      (upstream : Option TokenData) (newAuthCode : String)
      (requests : Table PendingAuthRequest) (codes : Table AuthCodePayload)
      (rid : String),
      cq.state = some rid →
      ((oauthCallback env req cq upstream newAuthCode requests codes).2
          = (requests, codes)
        ∧ ∀ (u : Option String) (c s : String),
          (oauthCallback env req cq upstream newAuthCode requests codes).1
            ≠ CallbackResult.redirectBack u c s)
      ∨ (∃ (u : Option String) (c s : String),
          (oauthCallback env req cq upstream newAuthCode requests codes).1
            = CallbackResult.redirectBack u c s
          ∧ (oauthCallback env req cq upstream newAuthCode requests codes).2.1
            = requests.del rid) := by
  intro env req cq upstream newAuthCode requests codes rid hstate
  simp only [oauthCallback, hstate, Option.getD_some]
  split
  · left; exact ⟨rfl, fun u c s h => by simp at h⟩
  · split
    · left; exact ⟨rfl, fun u c s h => by simp at h⟩
    · split
      · split
        · left; exact ⟨rfl, fun u c s h => by simp at h⟩
        · split
          · left; exact ⟨rfl, fun u c s h => by simp at h⟩
          · split
            · right; exact ⟨_, _, _, rfl, rfl⟩
            · left; exact ⟨rfl, fun u c s h => by simp at h⟩
      · split
        · left; exact ⟨rfl, fun u c s h => by simp at h⟩
        · split
          · left; exact ⟨rfl, fun u c s h => by simp at h⟩
          · left; exact ⟨rfl, fun u c s h => by simp at h⟩

/-- C4 (amended): a matched Pending Authorization Request is removed
exactly when the upstream token exchange succeeds: whenever the callback
answers with the redirect carrying the minted code, the entry under the
presented state is gone; whenever the callback answers with an error,
both OAuth tables are unchanged (so after a failed exchange the entry
remains and may be matched again). -/
theorem C4_pending_request_amended :
    ∀ (env : Env) (req : OAuthReq) (cq : CallbackQuery)
      (upstream : Option TokenData) (newAuthCode : String)
      (requests : Table PendingAuthRequest) (codes : Table AuthCodePayload)
      (rid : String),
      cq.state = some rid →
      (∀ (u : Option String) (c s : String),
        (oauthCallback env req cq upstream newAuthCode requests codes).1
          = CallbackResult.redirectBack u c s →
        (oauthCallback env req cq upstream newAuthCode requests codes).2.1 rid
          = none)
      ∧ (∀ (st : Nat) (e : String),
        (oauthCallback env req cq upstream newAuthCode requests codes).1
          = CallbackResult.errorJson st e →
        (oauthCallback env req cq upstream newAuthCode requests codes).2.1
          = requests
        ∧ (oauthCallback env req cq upstream newAuthCode requests codes).2.2
          = codes) := by
  intro env req cq upstream newAuthCode requests codes rid hstate
  rcases oauthCallbackCases env req cq upstream newAuthCode requests codes rid
      hstate with ⟨hunch, hnored⟩ | ⟨u', c', s', hred, hdel⟩
  · constructor
    · intro u c s h
      exact absurd h (hnored u c s)
    · intro st e h
      exact ⟨congrArg Prod.fst hunch, congrArg Prod.snd hunch⟩
  · constructor
    · intro u c s h
      rw [hdel]
      exact Table.get_del requests rid
    · intro st e h
      rw [hred] at h
      exact absurd h (by simp)

/-- C4 (witness): a successful exchange at concrete inputs answers the
redirect and removes the pending entry `"r2"`. -/
theorem C4_witness :
    (oauthCallback ⟨"", "", "", ""⟩ {}
        { code := some "upc", state := some "r2" }
        (some { access_token := some "UAT", refresh_token := some "URT",
                expires_in := some 86400 })
        "nc2"
        (Table.empty.set "r2"
          ⟨some "cl2", some "cb2", some "st2", none, none,
           some "kid2", some "ksec2", some "kuri2"⟩)
        Table.empty).1
      = CallbackResult.redirectBack (some "cb2") "nc2" "st2"
    ∧ (oauthCallback ⟨"", "", "", ""⟩ {}
        { code := some "upc", state := some "r2" }
        (some { access_token := some "UAT", refresh_token := some "URT",
                expires_in := some 86400 })
        "nc2"
        (Table.empty.set "r2"
          ⟨some "cl2", some "cb2", some "st2", none, none,
           some "kid2", some "ksec2", some "kuri2"⟩)
        Table.empty).2.1 "r2"
      = none :=
  ⟨by decide,
   (C4_pending_request_amended ⟨"", "", "", ""⟩ {}
      { code := some "upc", state := some "r2" }
      (some { access_token := some "UAT", refresh_token := some "URT",
              expires_in := some 86400 })
      "nc2"
      (Table.empty.set "r2"
        ⟨some "cl2", some "cb2", some "st2", none, none,
         some "kid2", some "ksec2", some "kuri2"⟩)
      Table.empty "r2" rfl).1 (some "cb2") "nc2" "st2" (by decide)⟩
